import Mathlib

/-!
Verification of the stm32plus timer master/slave configuration core
(`src/examples/timer_master_slave/timer_master_slave.cpp`) against its
natural-language specification.  The library functions that the demo calls
(`setTimeBaseByFrequency`, `initCompareForPwmOutput`, `initCompare`,
`enableMasterFeature`, `enableSlaveFeature`, `enablePeripheral`,
`disablePeripheral`) live outside the repository snapshot, so the data
model and operations below are modelled from the specification's §3–§4,
and the demo's documented configuration values (master: 2000 Hz tick,
reload 7999, 25 % PWM; slave: 2000 Hz tick, reload 199, toggle compare
199, gated by the master) are taken from the demo source.
-/

namespace StmTimer

/-- Error taxonomy of the specification's §7. -/
inductive ConfigurationError where
  | FrequencyOutOfRange
  | ChannelUnavailable
  | InvalidEnableOrder
  | RunningReconfiguration
deriving DecidableEq

/-- Rounded natural division: nearest integer to `a / b`, ties rounding up. -/
def roundDiv (a b : Nat) : Nat := (2 * a + b) / (2 * b)

/-- Timebase of §3: stored prescaler register value and auto-reload value. -/
structure Timebase where
  prescaler : Nat
  reload : Nat
deriving DecidableEq

/-- Modelled from the spec: `TimebaseCalculator` (§4.1).  Given `clockHz`,
`desiredFrequencyHz` and an application-chosen `reload`, it computes
`prescaler = round(clockHz / (desiredFrequencyHz * (reload + 1))) - 1`;
when the required divisor `prescaler + 1` falls outside the hardware range
(stored prescaler in [0, 65535], divisor in [1, 65536]) it fails with
`FrequencyOutOfRange` and performs no clamping. -/
def timebaseCalculator (clockHz desiredFrequencyHz reload : Nat) :
    Except ConfigurationError Timebase :=
  let divisor := roundDiv clockHz (desiredFrequencyHz * (reload + 1))
  if divisor < 1 ∨ 65536 < divisor then
    Except.error ConfigurationError.FrequencyOutOfRange
  else
    Except.ok { prescaler := divisor - 1, reload := reload }

/-- Output-compare channel modes of §3. -/
inductive CompareMode where
  | Toggle
  | PwmActiveHigh
deriving DecidableEq

/-- One output-compare channel (§3): compare value and output action. -/
structure CompareChannel where
  compareValue : Nat
  mode : CompareMode
deriving DecidableEq

/-- Modelled from the spec: `initAsPwm(dutyPercent)` (§4.2) on a timebase
with auto-reload `reload` sets `compareValue = round(dutyPercent/100 *
(reload+1))` and mode `PwmActiveHigh`. -/
def initAsPwm (dutyPercent reload : Nat) : CompareChannel :=
  { compareValue := roundDiv (dutyPercent * (reload + 1)) 100
    mode := CompareMode.PwmActiveHigh }

/-- Modelled from the spec: `initAsToggle(compareValue)` (§4.2) sets the
compare value and mode `Toggle`. -/
def initAsToggle (compareValue : Nat) : CompareChannel :=
  { compareValue := compareValue, mode := CompareMode.Toggle }

/-- PWM channel output (§4.2): high while the counter is below the compare
value, low otherwise. -/
def pwmOutput (compareValue counter : Nat) : Bool :=
  counter < compareValue

/-- Modelled from the spec: the up-counter of a timebase with auto-reload
`reload` counts 0, 1, …, reload, 0, …, so at tick `s` its value is
`s % (reload + 1)`.  `toggleMatches reload cmp t` counts the compare
matches of a toggle channel during ticks `[0, t)`. -/
def toggleMatches (reload cmp t : Nat) : Nat :=
  ((Finset.range t).filter (fun s => s % (reload + 1) = cmp)).card

/-- Modelled from the spec: a toggle channel's output level after `t` ticks,
starting from level `b`; each compare match inverts the level (§4.2). -/
def toggleOut (reload cmp : Nat) (b : Bool) (t : Nat) : Bool :=
  if toggleMatches reload cmp t % 2 = 1 then !b else b

/-- Timer roles of §3. -/
inductive TimerRole where
  | NoRole
  | Master
  | Slave
deriving DecidableEq

/-- TimerPeripheral of §3: a counter with a timebase, channels, a role and
an enabled/disabled lifecycle. -/
structure TimerPeripheral where
  role : TimerRole
  timebase : Option Timebase
  channels : List CompareChannel
  masterFeatureEnabled : Bool
  slaveFeatureEnabled : Bool
  running : Bool
deriving DecidableEq

/-- Modelled from the spec: `enableMasterFeature` (§4.3) must be invoked
strictly before `enablePeripheral`; invoking it on a running peripheral is
the protocol violation `InvalidEnableOrder`. -/
def enableMasterFeature (p : TimerPeripheral) :
    Except ConfigurationError TimerPeripheral :=
  if p.running then Except.error ConfigurationError.InvalidEnableOrder
  else Except.ok { p with masterFeatureEnabled := true }

/-- Modelled from the spec: `enableSlaveFeature` (§4.3), symmetric to
`enableMasterFeature` for the Slave role. -/
def enableSlaveFeature (p : TimerPeripheral) :
    Except ConfigurationError TimerPeripheral :=
  if p.running then Except.error ConfigurationError.InvalidEnableOrder
  else Except.ok { p with slaveFeatureEnabled := true }

/-- Modelled from the spec: `enablePeripheral` (§4.3, §8).  A Master-role
peripheral whose master feature has not been enabled yet (likewise a
Slave-role one without its slave feature) fails with `InvalidEnableOrder`;
otherwise the peripheral starts running. -/
def enablePeripheral (p : TimerPeripheral) :
    Except ConfigurationError TimerPeripheral :=
  if p.role = TimerRole.Master ∧ p.masterFeatureEnabled = false then
    Except.error ConfigurationError.InvalidEnableOrder
  else if p.role = TimerRole.Slave ∧ p.slaveFeatureEnabled = false then
    Except.error ConfigurationError.InvalidEnableOrder
  else
    Except.ok { p with running := true }

/-- A failed operation leaves the peripheral's state unchanged: this wrapper
returns the (possibly unchanged) peripheral together with the error, so that
"leaves the peripheral not running" is directly expressible. -/
def tryEnablePeripheral (p : TimerPeripheral) :
    TimerPeripheral × Option ConfigurationError :=
  match enablePeripheral p with
  | Except.ok q => (q, none)
  | Except.error e => (p, some e)

/-- Modelled from the spec: `disablePeripheral` (§4.3), `Running → Stopped`;
everything but the running flag is preserved. -/
def disablePeripheral (p : TimerPeripheral) : TimerPeripheral :=
  { p with running := false }

/-- Modelled from the spec: `setTimeBaseByFrequency` (§4.3) invokes the
TimebaseCalculator; reconfiguring a running peripheral fails with
`RunningReconfiguration`. -/
def setTimeBaseByFrequency (p : TimerPeripheral)
    (clockHz desiredFrequencyHz reload : Nat) :
    Except ConfigurationError TimerPeripheral :=
  if p.running then Except.error ConfigurationError.RunningReconfiguration
  else
    match timebaseCalculator clockHz desiredFrequencyHz reload with
    | Except.error e => Except.error e
    | Except.ok tb => Except.ok { p with timebase := some tb }

/-- The four steps of `SynchronizedTimerPair.start()` (§4.5), in their fixed
order. -/
inductive StartStep where
  | masterFeature
  | masterEnable
  | slaveFeature
  | slaveEnable
deriving DecidableEq

/-- SynchronizedTimerPair of §3: one master and one slave peripheral. -/
structure SynchronizedTimerPair where
  master : TimerPeripheral
  slave : TimerPeripheral
deriving DecidableEq

/-- Modelled from the spec: `start()` (§4.5) runs, in fixed order,
`master.enableMasterFeature()`, `master.enablePeripheral()`,
`slave.enableSlaveFeature()`, `slave.enablePeripheral()`.  The first failing
step aborts the sequence and is reported; mutations already applied are kept
(no rollback). -/
def start (pr : SynchronizedTimerPair) :
    SynchronizedTimerPair × Option (StartStep × ConfigurationError) :=
  match enableMasterFeature pr.master with
  | Except.error e => (pr, some (StartStep.masterFeature, e))
  | Except.ok m1 =>
    match enablePeripheral m1 with
    | Except.error e =>
      ({ master := m1, slave := pr.slave }, some (StartStep.masterEnable, e))
    | Except.ok m2 =>
      match enableSlaveFeature pr.slave with
      | Except.error e =>
        ({ master := m2, slave := pr.slave }, some (StartStep.slaveFeature, e))
      | Except.ok s1 =>
        match enablePeripheral s1 with
        | Except.error e =>
          ({ master := m2, slave := s1 }, some (StartStep.slaveEnable, e))
        | Except.ok s2 => ({ master := m2, slave := s2 }, none)

/-- Configuration of a gated master/slave pair: master PWM reload and
compare, slave toggle reload and compare. -/
structure GatedConfig where
  mReload : Nat
  mCompare : Nat
  sReload : Nat
  sCompare : Nat
deriving DecidableEq

/-- State of the tick-level simulation of a gated pair: the two counters and
the slave toggle channel's output level. -/
structure GatedState where
  mCounter : Nat
  sCounter : Nat
  sOut : Bool
deriving DecidableEq

/-- Master PWM trigger output (§4.2): active while the master counter is
below its compare value. -/
def masterActive (cfg : GatedConfig) (st : GatedState) : Bool :=
  st.mCounter < cfg.mCompare

/-- Modelled from the spec: one shared clock tick of the gated pair (§4.4,
Gated mode: the slave counts only while the master-derived trigger is
active).  The master counter always advances; the slave counter advances and
its toggle channel fires only while the master PWM output is active. -/
def gatedStep (cfg : GatedConfig) (st : GatedState) : GatedState :=
  let mc := if st.mCounter = cfg.mReload then 0 else st.mCounter + 1
  if masterActive cfg st then
    { mCounter := mc
      sCounter := if st.sCounter = cfg.sReload then 0 else st.sCounter + 1
      sOut := if st.sCounter = cfg.sCompare then !st.sOut else st.sOut }
  else
    { mCounter := mc, sCounter := st.sCounter, sOut := st.sOut }

/-- Simulated run of a gated pair from reset (both counters 0, slave output
low): state after `t` ticks. -/
def gatedRun (cfg : GatedConfig) : Nat → GatedState
  | 0 => { mCounter := 0, sCounter := 0, sOut := false }
  | t + 1 => gatedStep cfg (gatedRun cfg t)

/-- The gating property at one state: the slave output is low whenever the
master output is inactive. -/
def gatedOk (cfg : GatedConfig) (st : GatedState) : Bool :=
  masterActive cfg st || !st.sOut

/-- Bounded checker: `gatedOk` holds at `st` and at the next `n - 1` states
reached from it. -/
def gatedCheck (cfg : GatedConfig) (st : GatedState) : Nat → Bool
  | 0 => true
  | n + 1 => gatedOk cfg st && gatedCheck cfg (gatedStep cfg st) n

/-- The demo's gated configuration: master reload 7999 with the 25 % PWM
compare value 2000, slave reload 199 with toggle compare 199. -/
def demoGatedConfig : GatedConfig :=
  { mReload := 7999, mCompare := 2000, sReload := 199, sCompare := 199 }

/-- A gated configuration on which the unconditioned gating claim fails:
the master's active window (2 ticks) ends while the slave's toggle output is
still high. -/
def cexGatedConfig : GatedConfig :=
  { mReload := 3, mCompare := 2, sReload := 1, sCompare := 0 }

/-- A concrete Master-role peripheral, configured but not yet enabled. -/
def demoMaster : TimerPeripheral :=
  { role := TimerRole.Master
    timebase := some { prescaler := 0, reload := 7999 }
    channels := [initAsPwm 25 7999]
    masterFeatureEnabled := false
    slaveFeatureEnabled := false
    running := false }

/-- A concrete Slave-role peripheral, configured but not yet enabled. -/
def demoSlave : TimerPeripheral :=
  { role := TimerRole.Slave
    timebase := some { prescaler := 39, reload := 199 }
    channels := [initAsToggle 199]
    masterFeatureEnabled := false
    slaveFeatureEnabled := false
    running := false }

/-- The demo's synchronized pair before `start()`. -/
def demoPair : SynchronizedTimerPair :=
  { master := demoMaster, slave := demoSlave }

/-- The demo master after its feature was enabled and it was started. -/
def runningMaster : TimerPeripheral :=
  { demoMaster with masterFeatureEnabled := true, running := true }

deriving instance DecidableEq for Except

/-- Active ticks of the demo's gated slave: how many of the ticks `[0, t)`
fall into the master's active window (`t % 8000 < 2000`). -/
def demoSigma (t : Nat) : Nat :=
  2000 * (t / 8000) + min (t % 8000) 2000

/-- Key accuracy property of rounded division: `roundDiv a b * b` misses `a`
by at most `b / 2` (two-sided, expressed without subtraction). -/
theorem roundDiv_accuracy (a b : Nat) (hb : 0 < b) :
    2 * (roundDiv a b * b) ≤ 2 * a + b ∧ 2 * a < 2 * (roundDiv a b * b) + b := by
  have h1 := Nat.div_add_mod (2 * a + b) (2 * b)
  have h2 : (2 * a + b) % (2 * b) < 2 * b := Nat.mod_lt _ (by omega)
  have hX : 2 * (roundDiv a b * b) = 2 * b * ((2 * a + b) / (2 * b)) := by
    unfold roundDiv; ring
  rw [hX]
  omega

/-- The PWM output is high for exactly `min cmp n` of the counter values in
`[0, n)`. -/
theorem pwmHighCount (cmp n : Nat) :
    ((Finset.range n).filter (fun c => pwmOutput cmp c = true)).card = min cmp n := by
  have h : ((Finset.range n).filter (fun c => pwmOutput cmp c = true)) =
      Finset.range (min cmp n) := by
    ext s
    simp only [pwmOutput, Finset.mem_filter, Finset.mem_range, decide_eq_true_eq, Nat.lt_min]
    omega
  rw [h, Finset.card_range]

/-- Claim C1 (amended): for every clockHz, desiredFrequencyHz and reload for
which a feasible prescaler exists, the TimebaseCalculator computes
`prescaler = round(clockHz / (desiredFrequencyHz * (reload+1))) - 1` within
the hardware range [0, 65535], and the achieved divisor is within half a
step of the ideal one: `2 * |(prescaler+1) * desiredFrequencyHz * (reload+1)
- clockHz| ≤ desiredFrequencyHz * (reload+1)` (stated as two inequalities).
The original "within one counter tick" bound holds only when
`reload + 1 ≤ 2 * (prescaler + 1)`. -/
theorem timebase_prescaler_formula (clockHz d reload : Nat) (hd : 0 < d)
    (hfeas : 1 ≤ roundDiv clockHz (d * (reload + 1)) ∧
      roundDiv clockHz (d * (reload + 1)) ≤ 65536) :
    ∃ tb, timebaseCalculator clockHz d reload = Except.ok tb ∧
      tb.reload = reload ∧
      tb.prescaler = roundDiv clockHz (d * (reload + 1)) - 1 ∧
      tb.prescaler ≤ 65535 ∧
      2 * ((tb.prescaler + 1) * (d * (reload + 1))) ≤
        2 * clockHz + d * (reload + 1) ∧
      2 * clockHz <
        2 * ((tb.prescaler + 1) * (d * (reload + 1))) + d * (reload + 1) := by
  have hb : 0 < d * (reload + 1) := by positivity
  have hacc := roundDiv_accuracy clockHz (d * (reload + 1)) hb
  have hq : (roundDiv clockHz (d * (reload + 1)) - 1) + 1 =
      roundDiv clockHz (d * (reload + 1)) := by omega
  simp only [timebaseCalculator]
  rw [if_neg (by omega)]
  refine ⟨_, rfl, rfl, rfl, ?_, ?_, ?_⟩
  · show roundDiv clockHz (d * (reload + 1)) - 1 ≤ 65535
    omega
  · show 2 * ((roundDiv clockHz (d * (reload + 1)) - 1 + 1) * (d * (reload + 1))) ≤
      2 * clockHz + d * (reload + 1)
    rw [hq]
    exact hacc.1
  · show 2 * clockHz <
      2 * ((roundDiv clockHz (d * (reload + 1)) - 1 + 1) * (d * (reload + 1))) +
        d * (reload + 1)
    rw [hq]
    exact hacc.2

/-- Witness for C1: the demo master's configuration (16 MHz clock, 2000 Hz,
reload 7999) is feasible and gets prescaler 0. -/
theorem timebase_prescaler_formula_witness :
    (0 < 2000) ∧
    (1 ≤ roundDiv 16000000 (2000 * (7999 + 1)) ∧
      roundDiv 16000000 (2000 * (7999 + 1)) ≤ 65536) ∧
    ∃ tb, timebaseCalculator 16000000 2000 7999 = Except.ok tb ∧
      tb.reload = 7999 ∧
      tb.prescaler = roundDiv 16000000 (2000 * (7999 + 1)) - 1 ∧
      tb.prescaler ≤ 65535 ∧
      2 * ((tb.prescaler + 1) * (2000 * (7999 + 1))) ≤
        2 * 16000000 + 2000 * (7999 + 1) ∧
      2 * 16000000 <
        2 * ((tb.prescaler + 1) * (2000 * (7999 + 1))) + 2000 * (7999 + 1) :=
  ⟨by decide, by decide,
    timebase_prescaler_formula 16000000 2000 7999 (by decide) (by decide)⟩

/-- Claim C1 counterexample: at clockHz 1040, desired 1 Hz, reload 99 the
calculator returns the feasible prescaler 9, but the achieved period —
`(reload+1) * (prescaler+1) = 1000` input-clock cycles — misses the desired
period of 1040 cycles by 40 cycles, which is more than one counter tick
(one tick = prescaler+1 = 10 cycles): the output is 1.04 Hz, 4 ticks short
of 1 Hz per period, so the "within one counter tick" bound fails. -/
theorem timebase_one_tick_cex :
    timebaseCalculator 1040 1 99 = Except.ok { prescaler := 9, reload := 99 } ∧
    ¬ (1040 ≤ (9 + 1) * (1 * (99 + 1)) + 1 * (9 + 1)) := by decide

/-- Claim C4 (amended): when the computed divisor
`round(clockHz / (desiredFrequencyHz * (reload+1)))` falls outside the legal
range [1, 65536], the calculator fails with `FrequencyOutOfRange` (no
clamping); in particular this happens for clockHz 72 MHz, 500 Hz and
reload 0.  (With reload 65535 the divisor is 2 and the call succeeds: the
1098 Hz floor applies to the counter tick frequency, not to the output
frequency at large reload values.) -/
theorem timebase_range_rejection (clockHz d reload : Nat)
    (h : roundDiv clockHz (d * (reload + 1)) = 0 ∨
      65536 < roundDiv clockHz (d * (reload + 1))) :
    timebaseCalculator clockHz d reload =
      Except.error ConfigurationError.FrequencyOutOfRange ∧
    timebaseCalculator 72000000 500 0 =
      Except.error ConfigurationError.FrequencyOutOfRange := by
  constructor
  · simp only [timebaseCalculator]
    rw [if_pos (by omega)]
  · decide

/-- Witness for C4: 72 MHz with desired 500 Hz at reload 0 needs divisor
144000 > 65536 and is rejected. -/
theorem timebase_range_rejection_witness :
    (roundDiv 72000000 (500 * (0 + 1)) = 0 ∨
      65536 < roundDiv 72000000 (500 * (0 + 1))) ∧
    timebaseCalculator 72000000 500 0 =
      Except.error ConfigurationError.FrequencyOutOfRange :=
  ⟨by decide, (timebase_range_rejection 72000000 500 0 (by decide)).1⟩

/-- Claim C4 counterexample: `TimebaseCalculator(72_000_000, 500, 65535)`
does not fail: the computed divisor `round(72e6 / (500 * 65536)) = 2` is in
range, so the call succeeds with prescaler 1. -/
theorem timebase_72MHz_500Hz_cex :
    timebaseCalculator 72000000 500 65535 =
      Except.ok { prescaler := 1, reload := 65535 } ∧
    timebaseCalculator 72000000 500 65535 ≠
      Except.error ConfigurationError.FrequencyOutOfRange := by decide

/-- Claim C2: `initAsPwm(dutyPercent)` with `0 ≤ dutyPercent ≤ 100` on a
timebase with auto-reload `reload` sets `compareValue =
round(dutyPercent/100 * (reload+1))` (which is at most `reload+1`) and mode
`PwmActiveHigh`; after `setTimeBaseByFrequency(2000, 7999)` at 16 MHz
(prescaler 0, reload 7999), `initAsPwm(25)` yields compareValue 2000 out of
8000, and the PWM output is high for exactly a quarter of the counter values
of each period. -/
theorem initAsPwm_correct (dutyPercent reload : Nat) (h : dutyPercent ≤ 100) :
    (initAsPwm dutyPercent reload).compareValue =
      roundDiv (dutyPercent * (reload + 1)) 100 ∧
    (initAsPwm dutyPercent reload).mode = CompareMode.PwmActiveHigh ∧
    (initAsPwm dutyPercent reload).compareValue ≤ reload + 1 ∧
    timebaseCalculator 16000000 2000 7999 =
      Except.ok { prescaler := 0, reload := 7999 } ∧
    (initAsPwm 25 7999).compareValue = 2000 ∧
    ((Finset.range (7999 + 1)).filter
      (fun c => pwmOutput (initAsPwm 25 7999).compareValue c = true)).card * 4 =
      7999 + 1 := by
  have hc : (initAsPwm 25 7999).compareValue = 2000 := by decide
  refine ⟨rfl, rfl, ?_, by decide, hc, ?_⟩
  · show roundDiv (dutyPercent * (reload + 1)) 100 ≤ reload + 1
    have hm : dutyPercent * (reload + 1) ≤ 100 * (reload + 1) :=
      Nat.mul_le_mul_right _ h
    unfold roundDiv
    omega
  · rw [hc, pwmHighCount]
    decide

/-- Witness for C2: the demo's 25 % duty on reload 7999. -/
theorem initAsPwm_correct_witness :
    (25 ≤ 100) ∧ (initAsPwm 25 7999).compareValue = 2000 :=
  ⟨by decide, (initAsPwm_correct 25 7999 (by decide)).2.2.2.2.1⟩

/-- A toggle channel sees no compare match before the first tick. -/
theorem toggleMatches_zero (reload cmp : Nat) : toggleMatches reload cmp 0 = 0 := by
  simp [toggleMatches]

/-- One more tick adds a compare match exactly when the counter value at that
tick equals the compare value. -/
theorem toggleMatches_succ (reload cmp t : Nat) :
    toggleMatches reload cmp (t + 1) =
      toggleMatches reload cmp t + (if t % (reload + 1) = cmp then 1 else 0) := by
  by_cases h : t % (reload + 1) = cmp
  · rw [if_pos h]
    unfold toggleMatches
    rw [Finset.range_succ, Finset.filter_insert, if_pos h,
      Finset.card_insert_of_not_mem (by simp)]
  · rw [if_neg h]
    unfold toggleMatches
    rw [Finset.range_succ, Finset.filter_insert, if_neg h]
    omega

/-- A toggle channel with compare value at most the reload value matches
exactly once during the first wrap period. -/
theorem toggleMatches_one_period (reload cmp : Nat) (h : cmp ≤ reload) :
    toggleMatches reload cmp (reload + 1) = 1 := by
  unfold toggleMatches
  have hset : (Finset.range (reload + 1)).filter
      (fun s => s % (reload + 1) = cmp) = {cmp} := by
    ext s
    simp only [Finset.mem_filter, Finset.mem_range, Finset.mem_singleton]
    constructor
    · rintro ⟨hs, hmod⟩
      rwa [Nat.mod_eq_of_lt hs] at hmod
    · rintro rfl
      exact ⟨by omega, Nat.mod_eq_of_lt (by omega)⟩
  rw [hset, Finset.card_singleton]

/-- Each full wrap period adds exactly one compare match. -/
theorem toggleMatches_add_period (reload cmp : Nat) (h : cmp ≤ reload) (t : Nat) :
    toggleMatches reload cmp (t + (reload + 1)) = toggleMatches reload cmp t + 1 := by
  induction t with
  | zero =>
    rw [Nat.zero_add, toggleMatches_one_period reload cmp h, toggleMatches_zero]
  | succ t ih =>
    have hsw : t + 1 + (reload + 1) = (t + (reload + 1)) + 1 := by omega
    rw [hsw, toggleMatches_succ, ih, toggleMatches_succ,
      Nat.add_mod_right t (reload + 1)]
    omega

/-- After `k` full wrap periods a toggle channel has matched exactly `k`
times, for every compare value in `[0, reload]`. -/
theorem toggleMatches_mul (reload cmp : Nat) (h : cmp ≤ reload) (k : Nat) :
    toggleMatches reload cmp ((reload + 1) * k) = k := by
  induction k with
  | zero => simpa using toggleMatches_zero reload cmp
  | succ k ih =>
    have hk : (reload + 1) * (k + 1) = (reload + 1) * k + (reload + 1) := by ring
    rw [hk, toggleMatches_add_period reload cmp h, ih]

/-- Claim C3: a toggle channel with `0 ≤ compareValue ≤ reload` inverts its
output exactly once per wrap period (one compare match per wrap), so its
output is antiperiodic with the wrap period and periodic with twice the wrap
period — its frequency is exactly half the counter's wrap frequency.  In the
demo, a counter ticking at 2000 Hz with reload 199 wraps 2000/200 = 10 times
per second and the toggle output runs at 2000/400 = 5 Hz. -/
theorem toggle_half_wrap_frequency (reload cmp : Nat) (b : Bool) (h : cmp ≤ reload) :
    (∀ t, toggleMatches reload cmp (t + (reload + 1)) =
      toggleMatches reload cmp t + 1) ∧
    (∀ t, toggleOut reload cmp b (t + (reload + 1)) =
      !(toggleOut reload cmp b t)) ∧
    (∀ t, toggleOut reload cmp b (t + 2 * (reload + 1)) =
      toggleOut reload cmp b t) ∧
    2000 / (199 + 1) = 10 ∧ 2000 / (2 * (199 + 1)) = 5 := by
  have hflip : ∀ t, toggleOut reload cmp b (t + (reload + 1)) =
      !(toggleOut reload cmp b t) := by
    intro t
    unfold toggleOut
    rw [toggleMatches_add_period reload cmp h]
    rcases Nat.mod_two_eq_zero_or_one (toggleMatches reload cmp t) with h2 | h2
    · rw [if_pos (by omega), if_neg (by omega)]
    · rw [if_neg (by omega), if_pos h2, Bool.not_not]
  refine ⟨toggleMatches_add_period reload cmp h, hflip, ?_, by decide, by decide⟩
  intro t
  have h2 : t + 2 * (reload + 1) = (t + (reload + 1)) + (reload + 1) := by ring
  rw [h2, hflip, hflip, Bool.not_not]

/-- Witness for C3: the demo slave (reload 199, compare 199), output starting
low, flips across one wrap period. -/
theorem toggle_half_wrap_frequency_witness :
    (199 ≤ 199) ∧ toggleOut 199 199 false (0 + (199 + 1)) =
      !(toggleOut 199 199 false 0) :=
  ⟨by decide, (toggle_half_wrap_frequency 199 199 false (by decide)).2.1 0⟩

/-- Claim C9: a toggle compare value equal to the auto-reload value (the
demo's `initCompare(199)` on reload 199, the upper boundary of the
precondition) is a legal configuration, and the toggle fires exactly once
per wrap period for every compare value in `[0, reload]`, so the toggle
output frequency does not depend on the chosen compare value. -/
theorem toggle_once_per_wrap (reload cmp : Nat) (h : cmp ≤ reload) :
    (initAsToggle cmp).mode = CompareMode.Toggle ∧
    (initAsToggle cmp).compareValue ≤ reload ∧
    (∀ k, toggleMatches reload cmp ((reload + 1) * k) = k) ∧
    toggleMatches 199 199 200 = 1 := by
  refine ⟨rfl, h, toggleMatches_mul reload cmp h, ?_⟩
  exact toggleMatches_mul 199 199 (by omega) 1

/-- Witness for C9: the boundary configuration compare 199 on reload 199
matches exactly three times in three wraps. -/
theorem toggle_once_per_wrap_witness :
    (199 ≤ 199) ∧ toggleMatches 199 199 ((199 + 1) * 3) = 3 :=
  ⟨by decide, (toggle_once_per_wrap 199 199 (by decide)).2.2.1 3⟩

/-- Claim C10: with both demo timers ticking at 2000 Hz (the demo's
documented counter rate), master reload 7999 and slave reload 199: one
master period of 8000 ticks lasts 4 s and spans exactly 40 slave wrap
periods; the 25 % PWM compare value 2000 gates the slave on for 2000 ticks
= 1 s = 10 slave wraps = 10 toggles (5 on/off flashes), and off for the
remaining 6000 ticks = 3 s. -/
theorem demo_timing_numbers :
    (initAsPwm 25 7999).compareValue = 2000 ∧
    7999 + 1 = 40 * (199 + 1) ∧
    (7999 + 1) / 2000 = 4 ∧
    (initAsPwm 25 7999).compareValue / 2000 = 1 ∧
    toggleMatches 199 199 2000 = 10 ∧
    toggleMatches 199 199 2000 / 2 = 5 ∧
    (7999 + 1 - (initAsPwm 25 7999).compareValue) / 2000 = 3 := by
  have h10 : toggleMatches 199 199 2000 = 10 :=
    toggleMatches_mul 199 199 (by omega) 10
  refine ⟨by decide, by decide, by decide, by decide, h10, ?_, by decide⟩
  rw [h10]

/-- Claim C5: calling `enablePeripheral()` on a Master-role peripheral whose
master feature has not been enabled fails with `InvalidEnableOrder` and
leaves the peripheral state unchanged, in particular not running;
symmetrically for a Slave-role peripheral and its slave feature. -/
theorem enable_order_enforced (p q : TimerPeripheral)
    (hp : p.role = TimerRole.Master) (hpf : p.masterFeatureEnabled = false)
    (hpr : p.running = false)
    (hq : q.role = TimerRole.Slave) (hqf : q.slaveFeatureEnabled = false) :
    enablePeripheral p = Except.error ConfigurationError.InvalidEnableOrder ∧
    tryEnablePeripheral p = (p, some ConfigurationError.InvalidEnableOrder) ∧
    (tryEnablePeripheral p).1.running = false ∧
    enablePeripheral q = Except.error ConfigurationError.InvalidEnableOrder := by
  have hep : enablePeripheral p =
      Except.error ConfigurationError.InvalidEnableOrder := by
    unfold enablePeripheral
    rw [if_pos ⟨hp, hpf⟩]
  have heq : enablePeripheral q =
      Except.error ConfigurationError.InvalidEnableOrder := by
    unfold enablePeripheral
    rw [if_neg (by simp [hq]), if_pos ⟨hq, hqf⟩]
  refine ⟨hep, ?_, ?_, heq⟩
  · unfold tryEnablePeripheral
    rw [hep]
  · unfold tryEnablePeripheral
    rw [hep]
    exact hpr

/-- Witness for C5: the demo's freshly configured master and slave. -/
theorem enable_order_enforced_witness :
    enablePeripheral demoMaster =
      Except.error ConfigurationError.InvalidEnableOrder ∧
    enablePeripheral demoSlave =
      Except.error ConfigurationError.InvalidEnableOrder :=
  ⟨(enable_order_enforced demoMaster demoSlave rfl rfl rfl rfl rfl).1,
   (enable_order_enforced demoMaster demoSlave rfl rfl rfl rfl rfl).2.2.2⟩

/-- A successful `enableMasterFeature` only sets the master-feature flag, and
only happens on a stopped peripheral. -/
theorem enableMasterFeature_ok (p r : TimerPeripheral)
    (h : enableMasterFeature p = Except.ok r) :
    r = { p with masterFeatureEnabled := true } ∧ p.running = false := by
  unfold enableMasterFeature at h
  by_cases hr : p.running = true
  · rw [if_pos hr] at h
    cases h
  · rw [if_neg hr] at h
    injection h with h'
    exact ⟨h'.symm, by simpa using hr⟩

/-- A successful `enableSlaveFeature` only sets the slave-feature flag, and
only happens on a stopped peripheral. -/
theorem enableSlaveFeature_ok (p r : TimerPeripheral)
    (h : enableSlaveFeature p = Except.ok r) :
    r = { p with slaveFeatureEnabled := true } ∧ p.running = false := by
  unfold enableSlaveFeature at h
  by_cases hr : p.running = true
  · rw [if_pos hr] at h
    cases h
  · rw [if_neg hr] at h
    injection h with h'
    exact ⟨h'.symm, by simpa using hr⟩

/-- A successful `enablePeripheral` only sets the running flag. -/
theorem enablePeripheral_ok (p r : TimerPeripheral)
    (h : enablePeripheral p = Except.ok r) : r = { p with running := true } := by
  unfold enablePeripheral at h
  split at h
  · cases h
  · split at h
    · cases h
    · injection h with h'
      exact h'.symm

/-- Claim C6: `start()` invokes `master.enableMasterFeature()`,
`master.enablePeripheral()`, `slave.enableSlaveFeature()`,
`slave.enablePeripheral()` in that fixed order: on success all four took
effect.  For each of the four steps, a failure of that step aborts the
sequence with exactly that step reported: a master-step failure leaves the
slave untouched, a `slaveFeature` failure leaves the slave untouched and the
master running, and a `slaveEnable` failure leaves the slave with only its
slave feature set and the master running — peripherals already enabled stay
running (no rollback). -/
theorem start_fixed_order (pr : SynchronizedTimerPair) :
    ((start pr).2 = none →
      (start pr).1.master.running = true ∧
      (start pr).1.master.masterFeatureEnabled = true ∧
      (start pr).1.slave.running = true ∧
      (start pr).1.slave.slaveFeatureEnabled = true) ∧
    (∀ e, enableMasterFeature pr.master = Except.error e →
      start pr = (pr, some (StartStep.masterFeature, e))) ∧
    (∀ m1 e, enableMasterFeature pr.master = Except.ok m1 →
      enablePeripheral m1 = Except.error e →
      start pr = ({ master := m1, slave := pr.slave },
        some (StartStep.masterEnable, e))) ∧
    (∀ m1 m2 e, enableMasterFeature pr.master = Except.ok m1 →
      enablePeripheral m1 = Except.ok m2 →
      enableSlaveFeature pr.slave = Except.error e →
      start pr = ({ master := m2, slave := pr.slave },
        some (StartStep.slaveFeature, e)) ∧
      m2.running = true) ∧
    (∀ m1 m2 s1 e, enableMasterFeature pr.master = Except.ok m1 →
      enablePeripheral m1 = Except.ok m2 →
      enableSlaveFeature pr.slave = Except.ok s1 →
      enablePeripheral s1 = Except.error e →
      start pr = ({ master := m2, slave := s1 },
        some (StartStep.slaveEnable, e)) ∧
      m2.running = true ∧ s1 = { pr.slave with slaveFeatureEnabled := true }) := by
  refine ⟨?_, ?_, ?_, ?_, ?_⟩
  · intro h
    rcases h1 : enableMasterFeature pr.master with e1 | m1
    · simp only [start, h1] at h
      exact Option.noConfusion h
    · rcases h2 : enablePeripheral m1 with e2 | m2
      · simp only [start, h1, h2] at h
        exact Option.noConfusion h
      · rcases h3 : enableSlaveFeature pr.slave with e3 | s1
        · simp only [start, h1, h2, h3] at h
          exact Option.noConfusion h
        · rcases h4 : enablePeripheral s1 with e4 | s2
          · simp only [start, h1, h2, h3, h4] at h
            exact Option.noConfusion h
          · obtain ⟨hm1, -⟩ := enableMasterFeature_ok pr.master m1 h1
            obtain ⟨hs1, -⟩ := enableSlaveFeature_ok pr.slave s1 h3
            have hm2 := enablePeripheral_ok m1 m2 h2
            have hs2 := enablePeripheral_ok s1 s2 h4
            subst hm1 hs1 hm2 hs2
            simp [start, h1, h2, h3, h4]
  · intro e he
    simp [start, he]
  · intro m1 e h1 h2
    simp [start, h1, h2]
  · intro m1 m2 e h1 h2 h3
    have hm2 := enablePeripheral_ok m1 m2 h2
    subst hm2
    simp [start, h1, h2, h3]
  · intro m1 m2 s1 e h1 h2 h3 h4
    obtain ⟨hs1, -⟩ := enableSlaveFeature_ok pr.slave s1 h3
    have hm2 := enablePeripheral_ok m1 m2 h2
    subst hm2
    refine ⟨by simp [start, h1, h2, h3, h4], rfl, hs1⟩

/-- Witness for C6: starting the demo pair succeeds and leaves both
peripherals running. -/
theorem start_fixed_order_witness :
    (start demoPair).2 = none ∧
    (start demoPair).1.master.running = true ∧
    (start demoPair).1.slave.running = true :=
  ⟨rfl, ((start_fixed_order demoPair).1 rfl).1,
    ((start_fixed_order demoPair).1 rfl).2.2.1⟩

/-- Claim C7: for a running peripheral whose role-specific feature flag is
consistent with its role, `disablePeripheral()` followed by
`enablePeripheral()` with no reconfiguration returns exactly the original
state: the disable clears only the running flag (timebase and channels are
untouched) and the re-enable restores it. -/
theorem stop_restart_roundtrip (p : TimerPeripheral) (hrun : p.running = true)
    (hm : p.role = TimerRole.Master → p.masterFeatureEnabled = true)
    (hs : p.role = TimerRole.Slave → p.slaveFeatureEnabled = true) :
    (disablePeripheral p).running = false ∧
    (disablePeripheral p).timebase = p.timebase ∧
    (disablePeripheral p).channels = p.channels ∧
    enablePeripheral (disablePeripheral p) = Except.ok p := by
  obtain ⟨role, tb, ch, mf, sf, run⟩ := p
  simp only at hrun hm hs
  subst hrun
  refine ⟨rfl, rfl, rfl, ?_⟩
  cases role
  all_goals simp_all [enablePeripheral, disablePeripheral]

/-- Witness for C7: the running demo master survives a stop/restart cycle
unchanged. -/
theorem stop_restart_roundtrip_witness :
    runningMaster.running = true ∧
    enablePeripheral (disablePeripheral runningMaster) = Except.ok runningMaster :=
  ⟨rfl, (stop_restart_roundtrip runningMaster rfl (by decide) (by decide)).2.2.2⟩

/-- An active tick of the gated pair: both counters advance and the slave
toggle channel may fire. -/
theorem gatedStep_active (cfg : GatedConfig) (st : GatedState)
    (h : masterActive cfg st = true) :
    gatedStep cfg st =
      { mCounter := if st.mCounter = cfg.mReload then 0 else st.mCounter + 1
        sCounter := if st.sCounter = cfg.sReload then 0 else st.sCounter + 1
        sOut := if st.sCounter = cfg.sCompare then !st.sOut else st.sOut } := by
  unfold gatedStep
  rw [if_pos h]

/-- An inactive tick of the gated pair: the master counter advances, the
slave is frozen. -/
theorem gatedStep_inactive (cfg : GatedConfig) (st : GatedState)
    (h : masterActive cfg st = false) :
    gatedStep cfg st =
      { mCounter := if st.mCounter = cfg.mReload then 0 else st.mCounter + 1
        sCounter := st.sCounter
        sOut := st.sOut } := by
  unfold gatedStep
  rw [if_neg (by simp [h])]

/-- Invariant of the demo's gated simulation: the master counter is the tick
index mod 8000, and the slave counter and toggle output are determined by
`demoSigma t`, the number of active ticks seen so far (the slave counter is
`demoSigma t % 200` and the output level is the parity of the completed
slave wraps `demoSigma t / 200`). -/
theorem demoGated_invariant (t : Nat) :
    (gatedRun demoGatedConfig t).mCounter = t % 8000 ∧
    (gatedRun demoGatedConfig t).sCounter = demoSigma t % 200 ∧
    (gatedRun demoGatedConfig t).sOut = decide (demoSigma t / 200 % 2 = 1) := by
  have hR : demoGatedConfig.mReload = 7999 := rfl
  have hC : demoGatedConfig.mCompare = 2000 := rfl
  have hsR : demoGatedConfig.sReload = 199 := rfl
  have hsC : demoGatedConfig.sCompare = 199 := rfl
  induction t with
  | zero =>
    exact ⟨rfl, rfl, rfl⟩
  | succ t ih =>
    obtain ⟨hm, hs, ho⟩ := ih
    have hstep : gatedRun demoGatedConfig (t + 1) =
        gatedStep demoGatedConfig (gatedRun demoGatedConfig t) := rfl
    by_cases hact : t % 8000 < 2000
    · have hmact : masterActive demoGatedConfig (gatedRun demoGatedConfig t) = true := by
        unfold masterActive
        rw [hm, hC]
        exact decide_eq_true hact
      have hsg : demoSigma (t + 1) = demoSigma t + 1 := by
        unfold demoSigma
        omega
      rw [hstep, gatedStep_active demoGatedConfig _ hmact]
      refine ⟨?_, ?_, ?_⟩
      · show (if (gatedRun demoGatedConfig t).mCounter = demoGatedConfig.mReload then 0
          else (gatedRun demoGatedConfig t).mCounter + 1) = (t + 1) % 8000
        rw [hm, hR, if_neg (by omega)]
        omega
      · show (if (gatedRun demoGatedConfig t).sCounter = demoGatedConfig.sReload then 0
          else (gatedRun demoGatedConfig t).sCounter + 1) = demoSigma (t + 1) % 200
        rw [hs, hsg, hsR]
        by_cases h199 : demoSigma t % 200 = 199
        · rw [if_pos h199]
          omega
        · rw [if_neg h199]
          omega
      · show (if (gatedRun demoGatedConfig t).sCounter = demoGatedConfig.sCompare then
            !(gatedRun demoGatedConfig t).sOut else (gatedRun demoGatedConfig t).sOut) =
          decide (demoSigma (t + 1) / 200 % 2 = 1)
        rw [hs, hsg, hsC, ho]
        by_cases h199 : demoSigma t % 200 = 199
        · rw [if_pos h199, ← decide_not, decide_eq_decide]
          omega
        · rw [if_neg h199, decide_eq_decide]
          omega
    · have hmact : masterActive demoGatedConfig (gatedRun demoGatedConfig t) = false := by
        unfold masterActive
        rw [hm, hC]
        exact decide_eq_false hact
      have hsg : demoSigma (t + 1) = demoSigma t := by
        unfold demoSigma
        omega
      rw [hstep, gatedStep_inactive demoGatedConfig _ hmact]
      refine ⟨?_, ?_, ?_⟩
      · show (if (gatedRun demoGatedConfig t).mCounter = demoGatedConfig.mReload then 0
          else (gatedRun demoGatedConfig t).mCounter + 1) = (t + 1) % 8000
        rw [hm, hR]
        by_cases h7999 : t % 8000 = 7999
        · rw [if_pos h7999]
          omega
        · rw [if_neg h7999]
          omega
      · show (gatedRun demoGatedConfig t).sCounter = demoSigma (t + 1) % 200
        rw [hs, hsg]
      · show (gatedRun demoGatedConfig t).sOut = decide (demoSigma (t + 1) / 200 % 2 = 1)
        rw [hsg]
        exact ho

/-- Claim C8 (amended): in the demo's gated configuration (master reload
7999 with 25 % PWM compare 2000, slave reload 199 with toggle compare 199,
counters starting at 0 with the slave output low), at every tick of the
simulated run the slave's toggle output is low whenever the master's PWM
output is inactive, so the slave flashes only during the master's active
quarter of each period.  (Unconditionally the claim is false: gating only
freezes the slave, so a configuration whose active window closes with the
slave output high keeps it high.) -/
theorem gated_demo_slave_silent (t : Nat)
    (h : masterActive demoGatedConfig (gatedRun demoGatedConfig t) = false) :
    (gatedRun demoGatedConfig t).sOut = false := by
  obtain ⟨hm, hs, ho⟩ := demoGated_invariant t
  unfold masterActive at h
  rw [hm, show demoGatedConfig.mCompare = 2000 from rfl,
    decide_eq_false_iff_not] at h
  have hnot : ¬ (demoSigma t / 200 % 2 = 1) := by
    unfold demoSigma
    omega
  rw [ho]
  exact decide_eq_false hnot

/-- Witness for C8: at tick 2000 the demo master has just turned inactive
and the slave output is low. -/
theorem gated_demo_slave_silent_witness :
    masterActive demoGatedConfig (gatedRun demoGatedConfig 2000) = false ∧
    (gatedRun demoGatedConfig 2000).sOut = false := by
  have hm := (demoGated_invariant 2000).1
  have h : masterActive demoGatedConfig (gatedRun demoGatedConfig 2000) = false := by
    unfold masterActive
    rw [hm]
    decide
  exact ⟨h, gated_demo_slave_silent 2000 h⟩

/-- Claim C8 counterexample: in the gated configuration with master reload 3
and compare 2, slave reload 1 and compare 0, at tick 2 the master output is
inactive while the slave's toggle output is still high — the gate freezes
the slave output at whatever level it had when the master's active window
closed, so the slave output is not always zero during the master's inactive
fraction. -/
theorem gated_claim_cex :
    masterActive cexGatedConfig (gatedRun cexGatedConfig 2) = false ∧
    (gatedRun cexGatedConfig 2).sOut = true := by decide

end StmTimer
